import Mathlib

/-!
Verification of the scrape-cache-dedup-verify pipeline of the bolt repository.

The definitions below are a shallow embedding of:
  * the dedup & verification edge function (src/unnamed/part_002, the
    process-listings Deno.serve handler);
  * the GoogleMapsScraper service (src/unnamed/part_003): checkCache,
    scrapeListings ingestion loop, stop, completeSession;
  * the search_cache schema default expires_at = now() + 7 days
    (src/unnamed/part_001).

External I/O (HTTP fetches, database writes) is modelled by explicit
oracles: a website oracle `String → Option Nat` mapping a fetched URL to
its response status (`none` = network error or timeout), and boolean
insert-success schedules for the persistence layer. Time is in
milliseconds as a natural number.
-/

namespace Bolt

/-- JavaScript `String.prototype.toLowerCase()` on the character list of a
string (ASCII model, as in the scraped data). -/
def jsToLower (s : String) : String :=
  ⟨s.data.map Char.toLower⟩

/-- JavaScript `String.prototype.trim()`: whitespace stripped from both
ends. -/
def jsTrim (s : String) : String :=
  ⟨((s.data.dropWhile Char.isWhitespace).reverse.dropWhile
      Char.isWhitespace).reverse⟩

/-- JavaScript `String.prototype.startsWith(p)`. -/
def strStartsWith (s p : String) : Bool :=
  p.data.isPrefixOf s.data

/-- Whether `p` occurs as a contiguous run inside `s`. -/
def listHasRun (p : List Char) : List Char → Bool
  | [] => p.isEmpty
  | c :: rest => p.isPrefixOf (c :: rest) || listHasRun p rest

/-- A raw listing row as read by the process-listings handler
(src/unnamed/part_002 lines 14-21; `address` is nullable in the DB schema
and defended with `|| ""` at line 56). -/
structure Listing where
  name : String
  rating : Int
  website : String
  address : Option String
  phone : String
deriving DecidableEq

/-- A processed_listings row as built at src/unnamed/part_002 lines 93-103. -/
structure ProcessedListing where
  session_id : String
  name : String
  rating : Int
  website : String
  address : Option String
  phone : String
  is_website_verified : Bool
  website_status_code : Nat
  is_duplicate : Bool
deriving DecidableEq

/-- Dedup key of a listing: `normalizedName + "|" + normalizedAddress`
(src/unnamed/part_002 lines 55-57, `toLowerCase().trim()` on name and on
`address || ""`). -/
def companyKey (l : Listing) : String :=
  jsTrim (jsToLower l.name) ++ "|" ++ jsTrim (jsToLower (l.address.getD ""))

/-- URL the verification fetch targets (src/unnamed/part_002 lines 73-75):
the website unchanged when it starts with "http", else prefixed with
"https://". -/
def buildWebsiteUrl (w : String) : String :=
  if strStartsWith w "http" then w else "https://" ++ w

/-- The outbound request descriptor of one website verification. -/
structure FetchRequest where
  url : String
  method : String
  redirect : String
  timeoutMs : Nat
deriving DecidableEq

/-- The verification request issued at src/unnamed/part_002 lines 70-81:
HEAD, redirects followed, AbortController timeout at 5000 ms. -/
def mkVerificationRequest (w : String) : FetchRequest :=
  ⟨buildWebsiteUrl w, "HEAD", "follow", 5000⟩

/-- Modelled from the spec: a URL scheme is present in a website string.
The spec (§4.4) words the prefixing rule as "prefixed with https:// if no
scheme present"; a scheme separator is the substring "://". This
definition exists only to compare the spec's wording with
`buildWebsiteUrl`, which tests `startsWith "http"` instead. -/
def schemePresent (w : String) : Bool :=
  listHasRun "://".data w.data

/-- Result of one website check (src/unnamed/part_002 lines 64-90):
verified iff the response status is in [200,400); on fetch error the
status code stays at its initial 0 and the listing is not verified. -/
def verifyWebsite (web : String → Option Nat) (w : String) : Bool × Nat :=
  match web (mkVerificationRequest w).url with
  | some s => (decide (200 ≤ s) && decide (s < 400), s)
  | none => (false, 0)

/-- The processed_listings row pushed at src/unnamed/part_002 lines 93-103:
website unchanged (`verifiedWebsite = listing.website`), is_duplicate
literally false. -/
def mkProcessed (sid : String) (l : Listing) (ver : Bool) (code : Nat) :
    ProcessedListing :=
  ⟨sid, l.name, l.rating, l.website, l.address, l.phone, ver, code, false⟩

/-- The per-listing loop of the handler (src/unnamed/part_002 lines 54-105),
threading the `seenCompanies` key set. Returns the pushed processed rows
and, as instrumentation, the listings for which a website verification
fetch was actually attempted (the guard at line 68:
`listing.website && !isDuplicate`), both in loop order. -/
def engineRun (web : String → Option Nat) (sid : String)
    (seen : List String) : List Listing → List ProcessedListing × List Listing
  | [] => ([], [])
  | l :: rest =>
    let key := companyKey l
    let isDup := seen.contains key
    let seenNext := if isDup then seen else key :: seen
    let vr := if (l.website != "") && !isDup then verifyWebsite web l.website
              else (false, 0)
    let out := engineRun web sid seenNext rest
    (if !isDup && vr.1 then mkProcessed sid l vr.1 vr.2 :: out.1 else out.1,
     if (l.website != "") && !isDup then l :: out.2 else out.2)

/-- The processed rows the handler accumulates for a session's listings. -/
def processListings (web : String → Option Nat) (sid : String)
    (ls : List Listing) : List ProcessedListing :=
  (engineRun web sid [] ls).1

/-- The listings for which a verification fetch is attempted, in order. -/
def verificationAttempts (web : String → Option Nat) (sid : String)
    (ls : List Listing) : List Listing :=
  (engineRun web sid [] ls).2

/-- The sequence of `isDuplicate` flags the loop computes, in loop order,
starting from a given `seenCompanies` key set. -/
def dupFlags (seen : List String) : List Listing → List Bool
  | [] => []
  | l :: rest =>
    let d := seen.contains (companyKey l)
    d :: dupFlags (if d then seen else companyKey l :: seen) rest

/-- The `isDuplicate` flag computed for position `i` of a session's
listings (true when out of range). -/
def dupFlagAt (ls : List Listing) (i : Nat) : Bool :=
  (dupFlags [] ls).getD i true

/-- Placeholder listing used by positional accessors out of range. -/
def defaultListing : Listing := ⟨"", 0, "", none, ""⟩

/-- Dedup key at position `i` (default key when out of range). -/
def keyAt (ls : List Listing) (i : Nat) : String :=
  companyKey (ls.getD i defaultListing)

/-- A listing passes the push guard of src/unnamed/part_002 line 92 for a
non-duplicate: its website is non-empty and the check verified it. -/
def pushCond (web : String → Option Nat) (l : Listing) : Bool :=
  (l.website != "") && (verifyWebsite web l.website).1

/-- The JSON body of the handler's response (src/unnamed/part_002
lines 44-49, 120-126, 134-148): fields absent from a branch are `none`. -/
structure EngineResponse where
  success : Bool
  processed : Option Nat
  total : Option Nat
  duplicatesRemoved : Option Nat
deriving DecidableEq

/-- Observable outcome of one handler run: the response, the
processed_listings rows actually inserted, and whether the session's
processing_status was updated to completed. -/
structure HandlerOutcome where
  response : EngineResponse
  insertedRows : List ProcessedListing
  processingStatusUpdated : Bool
deriving DecidableEq

/-- The whole process-listings handler (src/unnamed/part_002 lines 31-149).
`fetched` is the result of reading the session's listings (`none` = fetch
error, thrown at line 43); `insertOk` tells whether the batch insert of
processed rows succeeds (a failure is thrown at line 112, reaching the
catch block and skipping the processing_status update of lines 115-118).
The empty-listings early return at lines 44-49 also skips that update. -/
def runProcessHandler (web : String → Option Nat) (sid : String)
    (fetched : Option (List Listing)) (insertOk : Bool) : HandlerOutcome :=
  match fetched with
  | none => ⟨⟨false, none, none, none⟩, [], false⟩
  | some listings =>
    if listings.isEmpty then ⟨⟨true, some 0, none, none⟩, [], false⟩
    else
      let pls := processListings web sid listings
      if !pls.isEmpty && !insertOk then ⟨⟨false, none, none, none⟩, [], false⟩
      else ⟨⟨true, some pls.length, some listings.length,
             some (listings.length - pls.length)⟩, pls, true⟩

/-- The abort signal as observed at suspension point `i` of the ingestion
loop: `stop` was called before iteration `abortAt` (never, when `none`).
Once set the signal stays set (AbortController signals are latched). -/
def sigAt (abortAt : Option Nat) (i : Nat) : Bool :=
  match abortAt with
  | some k => decide (k ≤ i)
  | none => false

/-- Accumulated observable writes of the ingestion loop. -/
structure IngestAcc where
  persisted : List Nat
  trWrites : List Nat
deriving DecidableEq

/-- The ingestion loop body of GoogleMapsScraper.scrapeListings
(src/unnamed/part_003 lines 97-150) over the remaining listing indices:
break on the abort signal; on a failed insert `continue` without touching
the counter (lines 139-142); on a successful insert update total_records
to `i + 1` (line 146, the loop index plus one — not a count of successful
writes). `persisted` collects indices of successfully inserted listings,
`trWrites` the successive values written to total_records, in order. -/
def scrapeAux (abortAt : Option Nat) (insertOk : Nat → Bool) :
    List Nat → IngestAcc
  | [] => ⟨[], []⟩
  | i :: rest =>
    if sigAt abortAt i then ⟨[], []⟩
    else
      let out := scrapeAux abortAt insertOk rest
      if insertOk i then ⟨i :: out.persisted, (i + 1) :: out.trWrites⟩
      else out

/-- Observable outcome of one scrapeListings run over `n` adapter
listings. -/
structure ScrapeOutcome where
  persisted : List Nat
  trWrites : List Nat
  finalTotalRecords : Nat
  cacheWritten : Bool
  processInvoked : Bool
deriving DecidableEq

/-- One run of scrapeListings (src/unnamed/part_003 lines 97-155): the
loop over indices 0..n-1, then — only when the abort signal is still
unset (line 152) — completeSession (which writes the cache entry) and
processListings are invoked. total_records starts at 0 (startSession,
line 47) and ends at the last value written. -/
def scrapeRun (abortAt : Option Nat) (insertOk : Nat → Bool) (n : Nat) :
    ScrapeOutcome :=
  let acc := scrapeAux abortAt insertOk (List.range n)
  let ab := sigAt abortAt n
  ⟨acc.persisted, acc.trWrites, acc.trWrites.getLast?.getD 0, !ab, !ab⟩

/-- A scraping_sessions row (the columns the claims mention). -/
structure SessionRow where
  status : String
  total_records : Nat
  processing_status : String
  completed_at : Option Nat
deriving DecidableEq

/-- The row update performed by GoogleMapsScraper.stop
(src/unnamed/part_003 lines 182-191): status completed, completed_at set
to the current time. -/
def stopUpdate (s : SessionRow) (now : Nat) : SessionRow :=
  ⟨"completed", s.total_records, s.processing_status, some now⟩

/-- Normalized search query (src/unnamed/part_003 lines 14 and 37, used
identically by checkCache and startSession):
`businessType.toLowerCase().trim() + "|" + location.toLowerCase().trim()`. -/
def normalizeQuery (bt loc : String) : String :=
  jsTrim (jsToLower bt) ++ "|" ++ jsTrim (jsToLower loc)

/-- A search_cache row (src/unnamed/part_001 lines 122-133). -/
structure CacheEntry where
  user_id : String
  search_query : String
  session_id : String
  result_count : Nat
  cached_at : Nat
  expires_at : Nat
deriving DecidableEq

/-- Seven days in milliseconds: the search_cache default
`expires_at = now() + interval '7 days'` (src/unnamed/part_001 line 131). -/
def sevenDaysMs : Nat := 7 * 24 * 60 * 60 * 1000

/-- The cache write of completeSession (src/unnamed/part_003 lines
207-216): one new row for the owner, query normalized as at session
creation, with the schema defaults cached_at = now and
expires_at = now + 7 days. -/
def recordCacheEntry (store : List CacheEntry) (uid bt loc sid : String)
    (count : Nat) (now : Nat) : List CacheEntry :=
  store ++ [⟨uid, normalizeQuery bt loc, sid, count, now, now + sevenDaysMs⟩]

/-- The rows the checkCache query matches (src/unnamed/part_003 lines
16-21): search_query equal to the normalized query and expires_at
strictly greater than now; the row-level security policy restricts
visible rows to the owner's. -/
def cacheMatches (store : List CacheEntry) (uid bt loc : String)
    (now : Nat) : List CacheEntry :=
  store.filter fun e =>
    e.user_id == uid && e.search_query == normalizeQuery bt loc &&
      decide (now < e.expires_at)

/-- GoogleMapsScraper.checkCache (src/unnamed/part_003 lines 13-33):
`maybeSingle()` yields the row when exactly one matches, null when none
matches, and an error when several match; the error path returns null
(lines 23-26), i.e. a miss. -/
def checkCache (store : List CacheEntry) (uid bt loc : String)
    (now : Nat) : Option String :=
  match cacheMatches store uid bt loc now with
  | [e] => some e.session_id
  | _ => none

/-- The listings of the spec's three-listing scenario (§8): two share the
dedup key "acme cafe|1 main st" up to case and whitespace, the third is
distinct. -/
def acmeFirst : Listing := ⟨"Acme Cafe", 4, "acme.com", some "1 Main St", "111"⟩

/-- Second Acme Cafe occurrence, case/whitespace-varied. -/
def acmeSecond : Listing := ⟨" ACME CAFE ", 5, "acme.com", some " 1 main st ", "222"⟩

/-- The scenario's third, distinct listing. -/
def betaThird : Listing := ⟨"Beta Bar", 3, "beta.com", some "2 Side St", "333"⟩

/-- The scenario's raw listings in ingestion order. -/
def scenarioListings : List Listing := [acmeFirst, acmeSecond, betaThird]

/-- Website oracle of the scenario's verified branch: the Acme site is
live with status 200, every other URL is unreachable. -/
def webLive : String → Option Nat :=
  fun u => if u == "https://acme.com" then some 200 else none

/-- Website oracle of the scenario's unverified branch: every URL is
unreachable. -/
def webDead : String → Option Nat := fun _ => none

/-- Insert schedule where the first listing's insert fails and every
later one succeeds. -/
def failFirstInsert : Nat → Bool := fun i => i != 0

/-!  Helper lemmas about the engine loop and the ingestion loop. -/

/-- The `isDuplicate` flag at position `i` is set iff the key at `i` is
in the initial seen set or among the keys of the strictly earlier
positions. -/
theorem dupFlags_getD (ls : List Listing) :
    ∀ (seen : List String) (i : Nat), i < ls.length →
      (dupFlags seen ls).getD i true =
        (seen.contains (companyKey (ls.getD i defaultListing)) ||
          ((ls.take i).map companyKey).contains
            (companyKey (ls.getD i defaultListing))) := by
  induction ls with
  | nil => intro seen i h; simp at h
  | cons l rest ih =>
    intro seen i h
    cases i with
    | zero => simp [dupFlags]
    | succ j =>
      have hj : j < rest.length := by simpa using h
      simp only [dupFlags, List.getD_cons_succ, List.take_succ_cons, List.map_cons,
        List.contains_cons]
      rw [ih _ j hj]
      by_cases hd : seen.contains (companyKey l) = true
      · simp only [hd, if_true]
        by_cases hk :
            (companyKey (rest.getD j defaultListing) == companyKey l) = true
        · have hkey := beq_iff_eq.mp hk
          rw [hkey]
          simp only [hd, Bool.true_or]
        · have hk' :
              (companyKey (rest.getD j defaultListing) == companyKey l) = false := by
            simpa using hk
          simp only [hk', Bool.false_or]
      · have hd' : seen.contains (companyKey l) = false := by simpa using hd
        simp only [hd', Bool.false_eq_true, if_false, List.contains_cons]
        cases hk : (companyKey (rest.getD j defaultListing) == companyKey l) <;>
          cases hc :
              seen.contains (companyKey (rest.getD j defaultListing)) <;>
            simp only [hk, hc, Bool.false_or, Bool.true_or, Bool.or_false,
              Bool.or_true]

/-- Membership of a key among the keys of the first `i` positions. -/
theorem take_map_contains (k : String) :
    ∀ (ls : List Listing) (i : Nat),
      (((ls.take i).map companyKey).contains k = true ↔
        ∃ j, j < i ∧ j < ls.length ∧ companyKey (ls.getD j defaultListing) = k) := by
  intro ls
  induction ls with
  | nil => intro i; simp
  | cons l rest ih =>
    intro i
    cases i with
    | zero => simp
    | succ m =>
      simp only [List.take_succ_cons, List.map_cons, List.contains_cons,
        Bool.or_eq_true, beq_iff_eq]
      constructor
      · rintro (hk | hP)
        · exact ⟨0, Nat.succ_pos _, Nat.succ_pos _, by
            simpa [List.getD_cons_zero] using hk.symm⟩
        · obtain ⟨j, hji, hjl, hkey⟩ := (ih m).mp hP
          exact ⟨j + 1, Nat.succ_lt_succ hji, Nat.succ_lt_succ hjl, by
            simpa [List.getD_cons_succ] using hkey⟩
      · rintro ⟨j, hji, hjl, hkey⟩
        cases j with
        | zero =>
          left
          simpa [List.getD_cons_zero] using hkey.symm
        | succ j' =>
          right
          exact (ih m).mpr ⟨j', Nat.lt_of_succ_lt_succ hji,
            Nat.lt_of_succ_lt_succ hjl, by
              simpa [List.getD_cons_succ] using hkey⟩

/-- Characterization of one engine pass: the pushed rows are exactly the
positions whose `isDuplicate` flag is unset and whose website check
passes, and a verification fetch is attempted exactly at the positions
with the flag unset and a non-empty website. -/
theorem engineRun_eq (web : String → Option Nat) (sid : String) :
    ∀ (ls : List Listing) (seen : List String),
      engineRun web sid seen ls =
        ((ls.zip (dupFlags seen ls)).filterMap fun q =>
            if !q.2 && pushCond web q.1 then
              some (mkProcessed sid q.1 true (verifyWebsite web q.1.website).2)
            else none,
          ((ls.zip (dupFlags seen ls)).filter fun q =>
              (q.1.website != "") && !q.2).map Prod.fst) := by
  intro ls
  induction ls with
  | nil => intro seen; simp [engineRun, dupFlags]
  | cons l rest ih =>
    intro seen
    by_cases hm : companyKey l ∈ seen
    · simp [engineRun, dupFlags, hm, List.zip_cons_cons, ih]
    · by_cases hw : l.website = ""
      · simp [engineRun, dupFlags, hm, hw, List.zip_cons_cons, ih, pushCond]
      · cases hv : (verifyWebsite web l.website).1 <;>
          simp [engineRun, dupFlags, hm, hw, hv, List.zip_cons_cons, ih,
            pushCond]

/-- Every index the ingestion loop persisted belongs to the iteration
range and was reached with the abort signal still unset. -/
theorem scrapeAux_persisted_mem (abortAt : Option Nat) (insertOk : Nat → Bool) :
    ∀ (idxs : List Nat) (j : Nat),
      j ∈ (scrapeAux abortAt insertOk idxs).persisted →
        j ∈ idxs ∧ sigAt abortAt j = false := by
  intro idxs
  induction idxs with
  | nil => intro j h; simp [scrapeAux] at h
  | cons i rest ih =>
    intro j h
    by_cases hs : sigAt abortAt i = true
    · simp [scrapeAux, hs] at h
    · have hs' : sigAt abortAt i = false := by simpa using hs
      by_cases ho : insertOk i = true
      · simp only [scrapeAux, hs', ho, Bool.false_eq_true, if_false, if_true] at h
        rcases List.mem_cons.mp h with rfl | hmem
        · exact ⟨List.mem_cons_self _ _, hs'⟩
        · obtain ⟨h1, h2⟩ := ih j hmem
          exact ⟨List.mem_cons_of_mem _ h1, h2⟩
      · have ho' : insertOk i = false := by simpa using ho
        simp only [scrapeAux, hs', ho', Bool.false_eq_true, if_false] at h
        obtain ⟨h1, h2⟩ := ih j h
        exact ⟨List.mem_cons_of_mem _ h1, h2⟩

/-!  Claim theorems. -/

/-- Claim C1: the ingestion loop writes `i + 1` (the loop index plus one)
to total_records after each successful insert, so when the insert of
listing 0 fails and that of listing 1 succeeds, the session ends with
total_records = 2 while only one RawListing row was persisted — the
counter exceeds the number of persisted rows, contradicting the claim
that it equals the persisted count and never exceeds it. -/
theorem total_records_overcounts_on_failed_insert :
    (scrapeRun none failFirstInsert 2).persisted = [1] ∧
    (scrapeRun none failFirstInsert 2).persisted.length = 1 ∧
    (scrapeRun none failFirstInsert 2).trWrites = [2] ∧
    (scrapeRun none failFirstInsert 2).finalTotalRecords = 2 := by
  decide

/-- Claim C2: position `i` of a session's raw listings is a non-duplicate
candidate exactly when no strictly earlier position shares its dedup key
(the smallest-index representative of its group); a website verification
is attempted only at candidate positions with a non-empty website, and
processed rows arise only at candidate positions — duplicates are dropped
before any verification is attempted for them. -/
theorem dedup_first_occurrence_is_candidate
    (web : String → Option Nat) (sid : String) (ls : List Listing) :
    (∀ i, i < ls.length →
      (dupFlagAt ls i = false ↔ ∀ j, j < i → keyAt ls j ≠ keyAt ls i)) ∧
    verificationAttempts web sid ls =
      ((ls.zip (dupFlags [] ls)).filter fun q =>
          (q.1.website != "") && !q.2).map Prod.fst ∧
    processListings web sid ls =
      ((ls.zip (dupFlags [] ls)).filterMap fun q =>
        if !q.2 && pushCond web q.1 then
          some (mkProcessed sid q.1 true (verifyWebsite web q.1.website).2)
        else none) := by
  have heq := engineRun_eq web sid ls []
  refine ⟨?_, ?_, ?_⟩
  · intro i hi
    simp only [keyAt]
    have hflag := dupFlags_getD ls [] i hi
    simp only [List.contains_nil, Bool.false_or] at hflag
    rw [dupFlagAt, hflag]
    constructor
    · intro hfl j hj hkey
      have hc := (take_map_contains (companyKey (ls.getD i defaultListing)) ls i).mpr
        ⟨j, hj, Nat.lt_trans hj hi, hkey⟩
      rw [hfl] at hc
      exact Bool.noConfusion hc
    · intro hall
      cases hcon : ((ls.take i).map companyKey).contains
          (companyKey (ls.getD i defaultListing)) with
      | false => rfl
      | true =>
        obtain ⟨j, hji, hjl, hkey⟩ :=
          (take_map_contains (companyKey (ls.getD i defaultListing)) ls i).mp hcon
        exact absurd hkey (hall j hji)
  · simp [verificationAttempts, heq]
  · simp [processListings, heq]

/-- Concrete instance of the C2 theorem: in the scenario, position 2
(distinct key) is a candidate because no earlier position shares its key. -/
theorem dedup_first_occurrence_is_candidate_witness :
    dupFlagAt scenarioListings 2 = false :=
  ((dedup_first_occurrence_is_candidate webLive "s" scenarioListings).1 2
    (by decide)).mpr (by decide)

/-- Claim C3: a processed row is produced exactly at the positions that
are first occurrences of their dedup key and whose website check passed,
and every produced row carries is_duplicate = false and
is_website_verified = true. -/
theorem processed_rows_iff_first_and_verified
    (web : String → Option Nat) (sid : String) (ls : List Listing) :
    (∀ p, p ∈ processListings web sid ls →
      p.is_duplicate = false ∧ p.is_website_verified = true) ∧
    processListings web sid ls =
      ((ls.zip (dupFlags [] ls)).filterMap fun q =>
        if !q.2 && ((q.1.website != "") && (verifyWebsite web q.1.website).1) then
          some (mkProcessed sid q.1 true (verifyWebsite web q.1.website).2)
        else none) := by
  have heq := engineRun_eq web sid ls []
  constructor
  · intro p hp
    have hp' : p ∈ ((ls.zip (dupFlags [] ls)).filterMap fun q =>
        if !q.2 && pushCond web q.1 then
          some (mkProcessed sid q.1 true (verifyWebsite web q.1.website).2)
        else none) := by
      simpa [processListings, heq] using hp
    obtain ⟨q, hq, hsome⟩ := List.mem_filterMap.mp hp'
    by_cases hc : (!q.2 && pushCond web q.1) = true
    · rw [if_pos hc] at hsome
      cases hsome
      exact ⟨rfl, rfl⟩
    · rw [if_neg hc] at hsome
      exact Option.noConfusion hsome
  · simp [processListings, heq, pushCond]

/-- Concrete instance of the C3 theorem: the single row the verified
scenario produces has is_duplicate = false and is_website_verified =
true. -/
theorem processed_rows_iff_first_and_verified_witness :
    (mkProcessed "s" acmeFirst true 200).is_duplicate = false ∧
    (mkProcessed "s" acmeFirst true 200).is_website_verified = true :=
  (processed_rows_iff_first_and_verified webLive "s" scenarioListings).1
    (mkProcessed "s" acmeFirst true 200) (by decide)

/-- Claim C10: the query normalization is not injective — the distinct
queries ("a|b", "c") and ("a", "b|c") normalize to the same key — and
because the cache lookup matches on the normalized string alone, a lookup
for one of them returns the session id cached for the other. -/
theorem normalized_query_collision :
    normalizeQuery "a|b" "c" = normalizeQuery "a" "b|c" ∧
    (("a|b", "c") : String × String) ≠ ("a", "b|c") ∧
    checkCache (recordCacheEntry [] "u" "a" "b|c" "S1" 5 100) "u" "a|b" "c" 200 =
      some "S1" := by
  decide

/-- Claim C4 counterexample: "httpexample.com" contains no URL scheme,
yet the verification fetch targets the website unchanged rather than
prefixed with "https://" — the code tests `startsWith("http")`, not
scheme presence, so the claim as stated fails at this input. -/
theorem url_prefix_not_scheme_based :
    schemePresent "httpexample.com" = false ∧
    (mkVerificationRequest "httpexample.com").url = "httpexample.com" ∧
    (mkVerificationRequest "httpexample.com").url ≠ "https://httpexample.com" := by
  decide

/-- Claim C4 (amended): the verification request is a HEAD request with a
5000 ms timeout following redirects, to the website prefixed with
"https://" exactly when the website does not start with "http"; the
candidate is verified iff the response status is in [200,400); and a
failed fetch (none) leaves the candidate unverified while the remaining
candidates are still processed. -/
theorem verification_request_spec (web : String → Option Nat) (sid : String)
    (seen : List String) (w : String) (l : Listing) (rest : List Listing) :
    (mkVerificationRequest w).method = "HEAD" ∧
    (mkVerificationRequest w).timeoutMs = 5000 ∧
    (mkVerificationRequest w).redirect = "follow" ∧
    (strStartsWith w "http" = false →
      (mkVerificationRequest w).url = "https://" ++ w) ∧
    (strStartsWith w "http" = true → (mkVerificationRequest w).url = w) ∧
    ((verifyWebsite web w).1 = true ↔
      ∃ s, web (buildWebsiteUrl w) = some s ∧ 200 ≤ s ∧ s < 400) ∧
    (web (buildWebsiteUrl l.website) = none →
      (engineRun web sid seen (l :: rest)).1 =
        (engineRun web sid
          (if seen.contains (companyKey l) then seen
           else companyKey l :: seen) rest).1) := by
  refine ⟨rfl, rfl, rfl, ?_, ?_, ?_, ?_⟩
  · intro h
    simp [mkVerificationRequest, buildWebsiteUrl, h]
  · intro h
    simp [mkVerificationRequest, buildWebsiteUrl, h]
  · cases hweb : web (buildWebsiteUrl w) with
    | none => simp [verifyWebsite, mkVerificationRequest, hweb]
    | some s => simp [verifyWebsite, mkVerificationRequest, hweb, and_assoc]
  · intro h
    have hv : verifyWebsite web l.website = (false, 0) := by
      simp [verifyWebsite, mkVerificationRequest, h]
    simp [engineRun, hv, ite_self]

/-- Concrete instance of the C4 theorem: "beta.com" gets the https
prefix, and a dead fetch of betaThird's website leaves the remaining
(empty) candidate list's output unchanged. -/
theorem verification_request_spec_witness :
    (mkVerificationRequest "beta.com").url = "https://" ++ "beta.com" ∧
    (engineRun webDead "s" [] [betaThird]).1 =
      (engineRun webDead "s"
        (if List.contains [] (companyKey betaThird) then []
         else [companyKey betaThird]) []).1 :=
  ⟨(verification_request_spec webDead "s" [] "beta.com" betaThird []).2.2.2.1
      (by decide),
    (verification_request_spec webDead "s" [] "beta.com" betaThird []).2.2.2.2.2.2
      (by decide)⟩

/-- Claim C5 counterexample: with two non-expired cache entries for the
same owner and normalized query, the lookup returns none (the
`maybeSingle()` error path is treated as a miss), not one of the entries
as the claim states. -/
theorem cache_lookup_none_on_multiple_entries :
    2 ≤ (cacheMatches
        (recordCacheEntry (recordCacheEntry [] "u" "Cafe" "NYC" "S1" 5 100)
          "u" "Cafe" "NYC" "S2" 7 200) "u" "Cafe" "NYC" 300).length ∧
    checkCache
        (recordCacheEntry (recordCacheEntry [] "u" "Cafe" "NYC" "S1" 5 100)
          "u" "Cafe" "NYC" "S2" 7 200) "u" "Cafe" "NYC" 300 = none := by
  decide

/-- Claim C5 (amended): when the written entry is the only matching row,
a lookup before expiry returns the written session id and a lookup at or
after expiry returns none; whenever two or more rows match, the lookup
returns none (treated as a miss). -/
theorem cache_roundtrip_spec (store : List CacheEntry)
    (uid bt loc sid : String) (count now t : Nat)
    (hempty : cacheMatches store uid bt loc t = []) :
    (t < now + sevenDaysMs →
      checkCache (recordCacheEntry store uid bt loc sid count now) uid bt loc t =
        some sid) ∧
    (now + sevenDaysMs ≤ t →
      checkCache (recordCacheEntry store uid bt loc sid count now) uid bt loc t =
        none) ∧
    (∀ store2 t2, 2 ≤ (cacheMatches store2 uid bt loc t2).length →
      checkCache store2 uid bt loc t2 = none) := by
  have hempty' : store.filter (fun e =>
      e.user_id == uid && e.search_query == normalizeQuery bt loc &&
        decide (t < e.expires_at)) = [] := hempty
  refine ⟨?_, ?_, ?_⟩
  · intro ht
    have hm : cacheMatches (recordCacheEntry store uid bt loc sid count now)
        uid bt loc t =
        [⟨uid, normalizeQuery bt loc, sid, count, now, now + sevenDaysMs⟩] := by
      simp [cacheMatches, recordCacheEntry, List.filter_append, hempty', ht]
    simp [checkCache, hm]
  · intro ht
    have hnot : ¬ t < now + sevenDaysMs := Nat.not_lt.mpr ht
    have hm : cacheMatches (recordCacheEntry store uid bt loc sid count now)
        uid bt loc t = [] := by
      simp [cacheMatches, recordCacheEntry, List.filter_append, hempty', hnot]
    simp [checkCache, hm]
  · intro store2 t2 hlen
    cases hm : cacheMatches store2 uid bt loc t2 with
    | nil => rw [hm] at hlen; simp at hlen
    | cons a tl =>
      cases tl with
      | nil => rw [hm] at hlen; simp at hlen
      | cons b tl2 => simp [checkCache, hm]

/-- Concrete instance of the C5 theorem: recording then looking up the
same query for the same owner 10 ms later returns the written session. -/
theorem cache_roundtrip_spec_witness :
    checkCache (recordCacheEntry [] "u" "Cafe" "NYC" "S1" 5 100)
      "u" "Cafe" "NYC" 110 = some "S1" :=
  (cache_roundtrip_spec [] "u" "Cafe" "NYC" "S1" 5 100 110 (by decide)).1
    (by decide)

/-- Claim C6: once stop is signalled before suspension point `k` of an
ingestion of `n` listings, no listing at index ≥ k is persisted, the run
ends without writing a cache entry and without invoking the processing
engine, and the stop update itself sets status = "completed" with a
non-null completed_at. -/
theorem stop_halts_writes_and_skips_cache
    (k n now : Nat) (insertOk : Nat → Bool) (s : SessionRow)
    (hk : k ≤ n) :
    (∀ i, i ∈ (scrapeRun (some k) insertOk n).persisted → i < k) ∧
    (scrapeRun (some k) insertOk n).cacheWritten = false ∧
    (scrapeRun (some k) insertOk n).processInvoked = false ∧
    (stopUpdate s now).status = "completed" ∧
    (stopUpdate s now).completed_at = some now ∧
    (stopUpdate s now).completed_at ≠ none := by
  refine ⟨?_, ?_, ?_, rfl, rfl, by simp [stopUpdate]⟩
  · intro i hi
    have hi' : i ∈ (scrapeAux (some k) insertOk (List.range n)).persisted := hi
    obtain ⟨-, hsig⟩ := scrapeAux_persisted_mem (some k) insertOk (List.range n) i hi'
    have : ¬ k ≤ i := by simpa [sigAt] using hsig
    omega
  · simp [scrapeRun, sigAt, hk]
  · simp [scrapeRun, sigAt, hk]

/-- Concrete instance of the C6 theorem: stop before iteration 1 of a
3-listing ingestion leaves the cache unwritten. -/
theorem stop_halts_writes_and_skips_cache_witness :
    (scrapeRun (some 1) (fun _ => true) 3).cacheWritten = false :=
  (stop_halts_writes_and_skips_cache 1 3 5 (fun _ => true)
    ⟨"running", 0, "pending", none⟩ (by decide)).2.1

/-- Claim C7 counterexample: when the batch insert of processed rows
fails, the handler throws before the processing_status update, so the
session is NOT marked completed, contrary to the claim; and a failing
read of the raw listings also fails the engine as a whole, so persisting
the batch is not the only whole-run failure mode. -/
theorem insert_failure_leaves_processing_status :
    (runProcessHandler webLive "s" (some scenarioListings) false).response.success
        = false ∧
    (runProcessHandler webLive "s"
        (some scenarioListings) false).processingStatusUpdated = false ∧
    (runProcessHandler webLive "s" none true).response.success = false := by
  decide

/-- Claim C7 (amended): the engine fails as a whole exactly when reading
the raw listings fails or when persisting a non-empty ProcessedListings
batch fails, and in the batch-persist failure case the session's
processing_status is left untouched (not marked completed). -/
theorem engine_failure_modes (web : String → Option Nat) (sid : String)
    (fetched : Option (List Listing)) (insertOk : Bool) :
    ((runProcessHandler web sid fetched insertOk).response.success = false ↔
      fetched = none ∨ ∃ ls, fetched = some ls ∧ ls ≠ [] ∧
        processListings web sid ls ≠ [] ∧ insertOk = false) ∧
    (∀ ls, fetched = some ls → processListings web sid ls ≠ [] →
      insertOk = false →
      (runProcessHandler web sid fetched insertOk).processingStatusUpdated
        = false) := by
  cases fetched with
  | none =>
    constructor
    · simp [runProcessHandler]
    · intro ls h
      exact absurd h (by simp)
  | some ls =>
    by_cases hls : ls = []
    · subst hls
      constructor
      · simp [runProcessHandler]
      · intro ls' h hp hio
        cases h
        exact absurd rfl hp
    · have hne : ls.isEmpty = false := by
        simpa [List.isEmpty_iff] using hls
      by_cases hp : processListings web sid ls = []
      · have hpe : (processListings web sid ls).isEmpty = true := by
          simp [hp]
        constructor
        · simp only [runProcessHandler, hne, hpe, Bool.false_eq_true, if_false,
            Bool.not_true, Bool.false_and, if_true]
          simp [hls, hp]
        · intro ls' h hp' hio
          cases h
          exact absurd hp hp'
      · have hpe : (processListings web sid ls).isEmpty = false := by
          simpa [List.isEmpty_iff] using hp
        cases insertOk with
        | true =>
          constructor
          · simp [runProcessHandler, hne, hpe]
          · intro ls' h hp' hio
            exact Bool.noConfusion hio
        | false =>
          constructor
          · simp only [runProcessHandler, hne, hpe, Bool.false_eq_true, if_false,
              Bool.not_false, Bool.true_and, if_true]
            constructor
            · intro _
              exact Or.inr ⟨ls, rfl, hls, hp, trivial⟩
            · intro _
              trivial
          · intro ls' h hp' hio
            cases h
            simp [runProcessHandler, hne, hpe]

/-- Concrete instance of the C7 theorem: the scenario with a failing
batch insert leaves processing_status untouched. -/
theorem engine_failure_modes_witness :
    (runProcessHandler webLive "s"
      (some scenarioListings) false).processingStatusUpdated = false :=
  (engine_failure_modes webLive "s" (some scenarioListings) false).2
    scenarioListings rfl (by decide) rfl

/-- Claim C8 counterexample: a session with no raw listings returns
success immediately without setting processing_status to completed,
contrary to the claim that every successful run — including over an empty
raw-listing set — marks the session completed. -/
theorem empty_session_skips_status_update :
    (runProcessHandler webLive "s" (some []) true).response.success = true ∧
    (runProcessHandler webLive "s" (some []) true).processingStatusUpdated
        = false := by
  decide

/-- Claim C8 (amended): after a successful engine run over a NON-EMPTY
raw-listing set, the session's processing_status is set to completed; the
empty set instead returns success without touching processing_status. -/
theorem nonempty_success_sets_status_completed (web : String → Option Nat)
    (sid : String) (ls : List Listing) (insertOk : Bool)
    (hne : ls ≠ [])
    (hok : processListings web sid ls = [] ∨ insertOk = true) :
    (runProcessHandler web sid (some ls) insertOk).response.success = true ∧
    (runProcessHandler web sid (some ls) insertOk).processingStatusUpdated
        = true := by
  have hne' : ls.isEmpty = false := by simpa [List.isEmpty_iff] using hne
  rcases hok with hp | hio
  · have hpe : (processListings web sid ls).isEmpty = true := by simp [hp]
    constructor <;> simp [runProcessHandler, hne', hpe]
  · subst hio
    constructor <;> simp [runProcessHandler, hne']

/-- Concrete instance of the C8 theorem: the successful scenario run
marks processing_status completed. -/
theorem nonempty_success_sets_status_completed_witness :
    (runProcessHandler webLive "s" (some scenarioListings) true).response.success
        = true ∧
    (runProcessHandler webLive "s"
        (some scenarioListings) true).processingStatusUpdated = true :=
  nonempty_success_sets_status_completed webLive "s" scenarioListings true
    (by decide) (Or.inr rfl)

/-- Claim C9 counterexample: in the spec scenario's unverified branch the
handler reports processed = 0 and duplicatesRemoved = 3, not the claimed
2. -/
theorem scenario_unverified_branch_reports_three :
    (runProcessHandler webDead "s" (some scenarioListings) true).response.processed
        = some 0 ∧
    (runProcessHandler webDead "s"
        (some scenarioListings) true).response.duplicatesRemoved = some 3 ∧
    (runProcessHandler webDead "s"
        (some scenarioListings) true).response.duplicatesRemoved ≠ some 2 := by
  decide

/-- Claim C9 (amended): every successful run reports duplicatesRemoved =
total − processed; in the spec's three-listing scenario the verified
branch reports processed = 1 with duplicatesRemoved = 2, and the
unverified branch reports processed = 0 with duplicatesRemoved = 3. -/
theorem duplicatesRemoved_total_minus_processed (web : String → Option Nat)
    (sid : String) (ls : List Listing) (insertOk : Bool)
    (hne : ls ≠ [])
    (hok : processListings web sid ls = [] ∨ insertOk = true) :
    (runProcessHandler web sid (some ls) insertOk).response.duplicatesRemoved =
      some (ls.length - (processListings web sid ls).length) ∧
    (runProcessHandler webLive "s" (some scenarioListings) true).response =
      ⟨true, some 1, some 3, some 2⟩ ∧
    (runProcessHandler webDead "s" (some scenarioListings) true).response =
      ⟨true, some 0, some 3, some 3⟩ := by
  refine ⟨?_, by decide, by decide⟩
  have hne' : ls.isEmpty = false := by simpa [List.isEmpty_iff] using hne
  rcases hok with hp | hio
  · have hpe : (processListings web sid ls).isEmpty = true := by simp [hp]
    simp [runProcessHandler, hne', hpe, hp]
  · subst hio
    simp [runProcessHandler, hne']

/-- Concrete instance of the C9 theorem: the verified scenario run
reports duplicatesRemoved = total − processed. -/
theorem duplicatesRemoved_total_minus_processed_witness :
    (runProcessHandler webLive "s"
        (some scenarioListings) true).response.duplicatesRemoved =
      some (scenarioListings.length -
        (processListings webLive "s" scenarioListings).length) :=
  (duplicatesRemoved_total_minus_processed webLive "s" scenarioListings true
    (by decide) (Or.inr rfl)).1

end Bolt
